import Mathlib

/-!
Shallow embedding of `examples/user_guide/17-Dashboards.ipynb`.

The notebook wires the external sample data `bokeh.sampledata.stocks` to
holoviews curves through three dashboard styles: a module-level function
`load_symbol`, a `param.Parameterized` class `StockExplorer` (and its
subclass `AdvancedStockExplorer`), and a widget-bound callback
`load_symbol_cb`.  Python values that flow through the cells are modelled
by `PyVal`; data frames by association lists of named columns; the
external stocks module by a partial map from attribute names to raw
frames; fallible attribute accesses by `Except PyError`.
-/

namespace Dashboards

/-- A Python value as it appears in the notebook's data: ints (standing in
for the numeric cells), strings, booleans, and `datetime64[ns]` values
produced by the `astype` cast of a date string. -/
inductive PyVal where
  | int (n : Int)
  | str (s : String)
  | bool (b : Bool)
  | datetime (s : String)
deriving DecidableEq, Repr

/-- A raw column dictionary such as `stocks.AAPL`: named columns of values. -/
structure RawFrame where
  cols : List (String × List PyVal)
deriving DecidableEq, Repr

/-- The external module `bokeh.sampledata.stocks`: `getattr` by name either
finds a column dictionary or fails. -/
abbrev StocksModule : Type := String → Option RawFrame

/-- A pandas `DataFrame` as used by the notebook: named columns. -/
structure DataFrame where
  cols : List (String × List PyVal)
deriving DecidableEq, Repr

/-- `pd.DataFrame(dict-of-lists)` constructs a fresh frame holding a copy of
the column data. -/
def pdDataFrame (r : RawFrame) : DataFrame := ⟨r.cols⟩

/-- Attribute access `df.name` on a frame: the column if present. -/
def DataFrame.getCol (df : DataFrame) (name : String) : Option (List PyVal) :=
  df.cols.lookup name

/-- Item assignment `df[name] = vals`: replaces the column when present,
appends it otherwise. -/
def DataFrame.setCol (df : DataFrame) (name : String) (vals : List PyVal) : DataFrame :=
  if (df.cols.lookup name).isSome then
    ⟨df.cols.map (fun c => if c.1 = name then (c.1, vals) else c)⟩
  else
    ⟨df.cols ++ [(name, vals)]⟩

/-- `astype('datetime64[ns]')` on a single cell: a date string becomes a
datetime value; everything else is unchanged. -/
def PyVal.toDatetime64 : PyVal → PyVal
  | .str s => .datetime s
  | v => v

/-- The exceptions the notebook's cells can surface: `getattr` on a missing
attribute raises `AttributeError(obj, attr)`. -/
inductive PyError where
  | attributeError (obj attr : String)
deriving DecidableEq, Repr

/-- An `hv.Curve` as the notebook builds it: the backing frame, the key
dimension `('date', 'Date')`, the value dimension, and the `framewise`
option applied by `.opts(framewise=True)`. -/
structure Curve where
  data : DataFrame
  kdim : String × String
  vdim : String
  framewise : Bool
deriving DecidableEq, Repr

/-- Cell 3's module-level function:

    def load_symbol(symbol, variable='adj_close', **kwargs):
        df = pd.DataFrame(getattr(stocks, symbol))
        df['date'] = df.date.astype('datetime64[ns]')
        return hv.Curve(df, ('date', 'Date'), variable).opts(framewise=True)

`getattr(stocks, symbol)` fails with `AttributeError` when the symbol is
not an attribute of the sample-data module; `df.date` fails likewise when
the frame has no `date` column. -/
def load_symbol (stocks : StocksModule) (symbol : String) (varName : String) :
    Except PyError Curve :=
  match stocks symbol with
  | none => .error (.attributeError "bokeh.sampledata.stocks" symbol)
  | some raw =>
    let df := pdDataFrame raw
    match df.getCol "date" with
    | none => .error (.attributeError "DataFrame" "date")
    | some dateCol =>
      let df := df.setCol "date" (dateCol.map PyVal.toDatetime64)
      .ok { data := df, kdim := ("date", "Date"), vdim := varName, framewise := true }

/-- Cell 3: `stock_symbols = ['AAPL', 'IBM', 'FB', 'GOOG', 'MSFT']`. -/
def stock_symbols : List String := ["AAPL", "IBM", "FB", "GOOG", "MSFT"]

/-- Cell 5: `variables = ['open', 'high', 'low', 'close', 'volume', 'adj_close']`. -/
def variables_ : List String := ["open", "high", "low", "close", "volume", "adj_close"]

/-- The default of `load_symbol`'s `variable` keyword argument. -/
def load_symbol_variable_default : String := "adj_close"

/-- A `param.Integer` declaration: default value and inclusive bounds. -/
structure IntegerParam where
  default : Int
  lo : Int
  hi : Int
deriving DecidableEq, Repr

/-- A `param.ObjectSelector` declaration: default value and allowed objects. -/
structure ObjectSelectorParam where
  default : String
  objects : List String
deriving DecidableEq, Repr

/-- A `param.Boolean` declaration: default value. -/
structure BooleanParam where
  default : Bool
deriving DecidableEq, Repr

/-- Cell 5: `rolling_window = param.Integer(default=10, bounds=(1, 365))`. -/
def rolling_window_param : IntegerParam := ⟨10, 1, 365⟩

/-- Cell 5: `symbol = param.ObjectSelector(default='AAPL', objects=stock_symbols)`. -/
def symbol_param : ObjectSelectorParam := ⟨"AAPL", stock_symbols⟩

/-- Cell 5: `variable = param.ObjectSelector(default='adj_close', objects=variables)`. -/
def variable_param : ObjectSelectorParam := ⟨"adj_close", variables_⟩

/-- Cell 13: `datashade = param.Boolean(default=False)`. -/
def datashade_param : BooleanParam := ⟨false⟩

/-- The state of a `StockExplorer` instance: current values of its three
declared parameters (`variable` is a Lean keyword, hence `variable_`). -/
structure StockExplorer where
  rolling_window : Int
  symbol : String
  variable_ : String
deriving DecidableEq, Repr

/-- Cell 7: `explorer = StockExplorer()` — every parameter at its default. -/
def StockExplorer.mk0 : StockExplorer :=
  ⟨rolling_window_param.default, symbol_param.default, variable_param.default⟩

/-- The dependency list declared by `@param.depends('symbol', 'variable')`
on `StockExplorer.load_symbol` (cell 5). -/
def StockExplorer.load_symbol_depends : List String := ["symbol", "variable"]

/-- Cell 5's method:

    @param.depends('symbol', 'variable')
    def load_symbol(self):
        df = pd.DataFrame(getattr(stocks, self.symbol))
        df['date'] = df.date.astype('datetime64[ns]')
        return hv.Curve(df, ('date', 'Date'), self.variable).opts(framewise=True)

`stocks` here still denotes the imported sample-data module. -/
def StockExplorer.load_symbol (stocks : StocksModule) (self : StockExplorer) :
    Except PyError Curve :=
  match stocks self.symbol with
  | none => .error (.attributeError "bokeh.sampledata.stocks" self.symbol)
  | some raw =>
    let df := pdDataFrame raw
    match df.getCol "date" with
    | none => .error (.attributeError "DataFrame" "date")
    | some dateCol =>
      let df := df.setCol "date" (dateCol.map PyVal.toDatetime64)
      .ok { data := df, kdim := ("date", "Date"), vdim := self.variable_, framewise := true }

/-- The state of an `AdvancedStockExplorer` instance: the three inherited
parameters plus the `datashade` boolean added in cell 13. -/
structure AdvancedStockExplorer where
  rolling_window : Int
  symbol : String
  variable_ : String
  datashade : Bool
deriving DecidableEq, Repr

/-- The inherited `StockExplorer` part of an `AdvancedStockExplorer`. -/
def AdvancedStockExplorer.toStockExplorer (a : AdvancedStockExplorer) : StockExplorer :=
  ⟨a.rolling_window, a.symbol, a.variable_⟩

/-- Cell 15: `explorer = AdvancedStockExplorer()` — every parameter at its
default. -/
def AdvancedStockExplorer.mk0 : AdvancedStockExplorer :=
  ⟨rolling_window_param.default, symbol_param.default, variable_param.default,
   datashade_param.default⟩

/-- The dependency list declared by `@param.depends('datashade')` on
`AdvancedStockExplorer.view` (cell 13). -/
def AdvancedStockExplorer.view_depends : List String := ["datashade"]

/-- A reference to a parameter object of the current instance, as produced
by `self.param.rolling_window` — the `Parameter` object itself, not its
current value; the value is read later, reactively, by the operation the
reference is passed to. -/
inductive ParamRef where
  | rolling_window
deriving DecidableEq, Repr

/-- A reference to a bound method of the current instance, as produced by
`self.load_symbol` when passed (uncalled) to `hv.DynamicMap` — the values
of the parameters the method reads are looked up only when the map later
invokes it. -/
inductive MethodRef where
  | load_symbol
deriving DecidableEq, Repr

/-- The static plot specification a cell builds before any rendering:
dynamic maps over bound methods, the `rolling`, `rolling_outlier_std`,
`datashade` and `dynspread` operations, `.opts(...)` applications, and
`*` overlays. -/
inductive PlotSpec where
  | dynamicMap (callback : MethodRef)
  | rollingOp (src : PlotSpec) (windowRef : ParamRef)
  | rollingOutlierStdOp (src : PlotSpec) (windowRef : ParamRef)
  | datashadeOp (src : PlotSpec) (aggregator : String)
  | dynspreadOp (src : PlotSpec)
  | optsApp (src : PlotSpec) (opts : List (String × PyVal))
  | overlay (left right : PlotSpec)
deriving DecidableEq, Repr

/-- Cell 13's method:

    @param.depends('datashade')
    def view(self):
        stocks = hv.DynamicMap(self.load_symbol)
        smoothed = rolling(stocks, rolling_window=self.param.rolling_window)
        if self.datashade:
            smoothed = dynspread(datashade(smoothed, aggregator='any')).opts(framewise=True)
        outliers = rolling_outlier_std(stocks, rolling_window=self.param.rolling_window).opts(
            width=600, color='red', marker='triangle', framewise=True)
        return (smoothed * outliers)

The local name `stocks` shadows the imported module only inside this body.
The body reads the value of `self.datashade`; `self.load_symbol` and
`self.param.rolling_window` are references whose values are read later by
the dynamic map and the rolling operations. -/
def AdvancedStockExplorer.view (self : AdvancedStockExplorer) : PlotSpec :=
  let stocks : PlotSpec := .dynamicMap .load_symbol
  let smoothed := PlotSpec.rollingOp stocks .rolling_window
  let smoothed :=
    if self.datashade then
      PlotSpec.optsApp (.dynspreadOp (.datashadeOp smoothed "any"))
        [("framewise", .bool true)]
    else smoothed
  let outliers := PlotSpec.optsApp (.rollingOutlierStdOp stocks .rolling_window)
    [("width", .int 600), ("color", .str "red"), ("marker", .str "triangle"),
     ("framewise", .bool true)]
  .overlay smoothed outliers

/-- Cell 11's widget-bound callback:

    @pn.depends(symbol=symbol.param.value, variable=variable.param.value)
    def load_symbol_cb(symbol, variable):
        return load_symbol(symbol, variable)
-/
def load_symbol_cb (stocks : StocksModule) (symbol : String) (varName : String) :
    Except PyError Curve :=
  load_symbol stocks symbol varName

/-- The keyword names bound by the `@pn.depends(symbol=..., variable=...)`
decorator on `load_symbol_cb` (cell 11). -/
def load_symbol_cb_depends : List String := ["symbol", "variable"]

/-- A `pn.widgets.IntSlider` as configured in cell 11 (`end` is a Lean
keyword, hence `end_`). -/
structure IntSlider where
  name : String
  value : Int
  start : Int
  end_ : Int
deriving DecidableEq, Repr

/-- Cell 11: `rolling_window = pn.widgets.IntSlider(name='Rolling Window',
value=10, start=1, end=365)`. -/
def rolling_window_widget : IntSlider := ⟨"Rolling Window", 10, 1, 365⟩

/-- Cell 11: `symbol = pn.widgets.RadioButtonGroup(options=stock_symbols)` —
its initial value is the first option. -/
def symbol_widget_value : String := stock_symbols.headD ""

/-- Cell 11: `variable = pn.widgets.Select(options=variables)` — its initial
value is the first option. -/
def variable_widget_value : String := variables_.headD ""

/-- A small concrete stand-in for one column dictionary of
`bokeh.sampledata.stocks`, with the seven columns the real sample data has
and a numeric seed to keep distinct symbols distinct. -/
def sampleFrame (n : Int) : RawFrame :=
  ⟨[("date", [.str "2000-03-01", .str "2000-03-02"]),
    ("open", [.int n, .int (n + 1)]),
    ("high", [.int (n + 2), .int (n + 3)]),
    ("low", [.int (n - 2), .int (n - 3)]),
    ("close", [.int (n + 1), .int n]),
    ("volume", [.int 1000, .int 2000]),
    ("adj_close", [.int n, .int (n + 2)])]⟩

/-- A concrete stand-in for the whole sample-data module: one frame per
known symbol, nothing else. -/
def sampleStocks : StocksModule := fun s =>
  if s = "AAPL" then some (sampleFrame 10)
  else if s = "IBM" then some (sampleFrame 20)
  else if s = "FB" then some (sampleFrame 30)
  else if s = "GOOG" then some (sampleFrame 40)
  else if s = "MSFT" then some (sampleFrame 50)
  else none

/-- The names of the parameters declared by the notebook's explorer
classes (the spec's Parameter Store keys). -/
inductive PName where
  | rolling_window
  | symbol
  | variable_
  | datashade
deriving DecidableEq, Repr

/-- The Python-level name of each parameter. -/
def PName.pyName : PName → String
  | .rolling_window => "rolling_window"
  | .symbol => "symbol"
  | .variable_ => "variable"
  | .datashade => "datashade"

/-- Modelled from the spec: the `param` library's validation, which is not
under `src/` — a "named, typed, bounded" input accepts an assigned value
only when it fits the declaration from cells 5 and 13: an integer within
the `rolling_window` bounds, a string among the selector's objects, a
boolean for `datashade`. -/
def validFor (p : PName) (v : PyVal) : Bool :=
  match p, v with
  | .rolling_window, .int n => rolling_window_param.lo ≤ n && n ≤ rolling_window_param.hi
  | .symbol, .str s => symbol_param.objects.contains s
  | .variable_, .str s => variable_param.objects.contains s
  | .datashade, .bool _ => true
  | _, _ => false

/-- Modelled from the spec: an attempted parameter assignment on the
parameter store — the `param` library (not under `src/`) rejects a value
outside the declared domain and leaves the stored value unchanged. -/
def trySet (st : AdvancedStockExplorer) (p : PName) (v : PyVal) : AdvancedStockExplorer :=
  if validFor p v then
    match p, v with
    | .rolling_window, .int n => { st with rolling_window := n }
    | .symbol, .str s => { st with symbol := s }
    | .variable_, .str s => { st with variable_ := s }
    | .datashade, .bool b => { st with datashade := b }
    | _, _ => st
  else st

/-- A sequence of attempted assignments applied to a store. -/
def applyAll (st : AdvancedStockExplorer) (updates : List (PName × PyVal)) :
    AdvancedStockExplorer :=
  updates.foldl (fun s u => trySet s u.1 u.2) st

/-- Every parameter's current value lies in its declared domain
(`datashade`, being a Lean `Bool`, is constrained by its type). -/
def inDomain (st : AdvancedStockExplorer) : Prop :=
  rolling_window_param.lo ≤ st.rolling_window ∧
  st.rolling_window ≤ rolling_window_param.hi ∧
  st.symbol ∈ symbol_param.objects ∧
  st.variable_ ∈ variable_param.objects

instance (st : AdvancedStockExplorer) : Decidable (inDomain st) := by
  unfold inDomain; infer_instance

/-- The derived computations of the class-based dashboard that the spec's
Dependency Registry tracks: `stock_dmap = hv.DynamicMap(explorer.load_symbol)`
(cell 7) and the `view` method passed to `pn.Row` (cell 15). -/
inductive Computation where
  | stock_dmap
  | view
deriving DecidableEq, Repr

/-- The computations registered with the dependency machinery. -/
def computations : List Computation := [.stock_dmap, .view]

/-- The Dependency Registry: the parameter names each derived computation
declares via its `@param.depends` decorator (cells 5 and 13). -/
def registry : Computation → List PName
  | .stock_dmap => [.symbol, .variable_]
  | .view => [.datashade]

instance {ε α : Type} [DecidableEq ε] [DecidableEq α] : DecidableEq (Except ε α) := fun a b =>
  match a, b with
  | .error e, .error f =>
    if h : e = f then .isTrue (by rw [h]) else .isFalse (by simp [h])
  | .ok x, .ok y =>
    if h : x = y then .isTrue (by rw [h]) else .isFalse (by simp [h])
  | .error _, .ok _ => .isFalse (by simp)
  | .ok _, .error _ => .isFalse (by simp)

/-- The value a re-invoked computation produces: a curve for the dynamic
map's callback, a plot specification for `view`. -/
inductive CompResult where
  | curve (c : Except PyError Curve)
  | plot (p : PlotSpec)
deriving DecidableEq, Repr

/-- Re-invoking one computation at the current parameter store. -/
def evalComputation (stocks : StocksModule) (st : AdvancedStockExplorer) :
    Computation → CompResult
  | .stock_dmap => .curve (StockExplorer.load_symbol stocks st.toStockExplorer)
  | .view => .plot st.view

/-- Modelled from the spec: the Recompute Trigger — on mutation of
parameter `p`, the computations whose registered dependency set contains
`p` are identified for re-invocation. -/
def recomputeTrigger (p : PName) : List Computation :=
  computations.filter (fun c => (registry c).contains p)

/-- Modelled from the spec: a full mutation step — the assignment is
applied to the parameter store and every dependent computation is
re-invoked at the post-mutation store. -/
def mutateAndRecompute (stocks : StocksModule) (st : AdvancedStockExplorer)
    (p : PName) (v : PyVal) :
    AdvancedStockExplorer × List (Computation × CompResult) :=
  let st' := trySet st p v
  (st', (recomputeTrigger p).map (fun c => (c, evalComputation stocks st' c)))

/-- The module-level bindings of the notebook that matter to the methods:
the name `stocks` bound by `from bokeh.sampledata import stocks` (cell 1). -/
structure Globals where
  stocks : StocksModule

/-- Cell 13's `view` with the module globals threaded explicitly.  The
assignment `stocks = hv.DynamicMap(self.load_symbol)` binds a function
local (a name assigned anywhere in a Python function body is local to it),
so the module globals come back unchanged. -/
def AdvancedStockExplorer.viewG (g : Globals) (self : AdvancedStockExplorer) :
    PlotSpec × Globals :=
  let stocks : PlotSpec := .dynamicMap .load_symbol
  let smoothed := PlotSpec.rollingOp stocks .rolling_window
  let smoothed :=
    if self.datashade then
      PlotSpec.optsApp (.dynspreadOp (.datashadeOp smoothed "any"))
        [("framewise", .bool true)]
    else smoothed
  let outliers := PlotSpec.optsApp (.rollingOutlierStdOp stocks .rolling_window)
    [("width", .int 600), ("color", .str "red"), ("marker", .str "triangle"),
     ("framewise", .bool true)]
  (.overlay smoothed outliers, g)

/-- Cell 3's `load_symbol` with the module globals threaded explicitly.
`pd.DataFrame(getattr(stocks, symbol))` copies the column data into a
fresh frame and `df['date'] = ...` mutates only that fresh local frame, so
the globals come back unchanged. -/
def load_symbolG (g : Globals) (symbol : String) (varName : String) :
    (Except PyError Curve) × Globals :=
  match g.stocks symbol with
  | none => (.error (.attributeError "bokeh.sampledata.stocks" symbol), g)
  | some raw =>
    let df := pdDataFrame raw
    match df.getCol "date" with
    | none => (.error (.attributeError "DataFrame" "date"), g)
    | some dateCol =>
      let df := df.setCol "date" (dateCol.map PyVal.toDatetime64)
      (.ok { data := df, kdim := ("date", "Date"), vdim := varName, framewise := true }, g)

/-- The library data the notebook demonstrates against: `getattr` on the
sample-data module succeeds for every listed stock symbol and the frame it
returns has a `date` column. -/
def hasData (stocks : StocksModule) (s : String) : Bool :=
  ((stocks s).bind (fun raw => raw.cols.lookup "date")).isSome

/-- One in-order execution of every code cell of the notebook, from a
fresh interpreter.  Only the evaluations that can raise are recorded:
rendering a displayed `DynamicMap` invokes its callback at the initial
key or parameter values (`'AAPL'` for the symbol dimension and widget,
the parameter defaults for the explorer instances, `'open'` for the
variable `Select` widget); class and widget definitions, operation
applications and layout construction are pure. -/
def runNotebook (stocks : StocksModule) : Except PyError Unit := do
  let _c3 ← load_symbol stocks (stock_symbols.headD "") load_symbol_variable_default
  let explorer := StockExplorer.mk0
  let _c7 ← StockExplorer.load_symbol stocks explorer
  let _c9smoothed ← StockExplorer.load_symbol stocks explorer
  let _c11 ← load_symbol_cb stocks symbol_widget_value variable_widget_value
  let advanced := AdvancedStockExplorer.mk0
  let _view := advanced.view
  let _c15 ← StockExplorer.load_symbol stocks advanced.toStockExplorer
  return ()

/-- One import statement of the notebook. -/
structure ImportStmt where
  module : String
  imported : List String
deriving DecidableEq, Repr

/-- The import statements of cells 1, 5, 11 and 13, in order. -/
def notebookImports : List ImportStmt :=
  [⟨"pandas", []⟩,
   ⟨"holoviews", []⟩,
   ⟨"bokeh.sampledata", ["stocks"]⟩,
   ⟨"holoviews.operation.timeseries", ["rolling", "rolling_outlier_std"]⟩,
   ⟨"param", []⟩,
   ⟨"panel", []⟩,
   ⟨"holoviews.operation.datashader", ["datashade", "dynspread"]⟩]

/-- The characters of a module path up to the first dot. -/
def upToDot : List Char → List Char
  | [] => []
  | c :: cs => if c = '.' then [] else c :: upToDot cs

/-- The top-level package of a dotted module path. -/
def topPackage (m : String) : String := ⟨upToDot m.data⟩

/-- The three third-party framework families the notebook demonstrates. -/
inductive FrameworkFamily where
  | charting
  | widgets
  | paramDecl
deriving DecidableEq, Repr

/-- Which framework family, if any, a top-level package belongs to:
`holoviews` is the charting library, `panel` the widget/dashboarding
library, `param` the parameter-declaration library; `pandas` and
`bokeh.sampledata` supply only data, no reactive-binding, recompute or
rendering mechanism. -/
def familyOf : String → Option FrameworkFamily
  | "holoviews" => some .charting
  | "panel" => some .widgets
  | "param" => some .paramDecl
  | _ => none

/-- A mechanism exercised by the cells together with the top-level package
that supplies it. -/
structure Mechanism where
  name : String
  provider : String
deriving DecidableEq, Repr

/-- Every reactive-binding, recompute and rendering mechanism the cells
call, with its provider. -/
def mechanismsUsed : List Mechanism :=
  [⟨"extension", "holoviews"⟩, ⟨"Curve", "holoviews"⟩, ⟨"DynamicMap", "holoviews"⟩,
   ⟨"redim", "holoviews"⟩, ⟨"opts", "holoviews"⟩, ⟨"rolling", "holoviews"⟩,
   ⟨"rolling_outlier_std", "holoviews"⟩, ⟨"datashade", "holoviews"⟩,
   ⟨"dynspread", "holoviews"⟩,
   ⟨"Parameterized", "param"⟩, ⟨"Integer", "param"⟩, ⟨"ObjectSelector", "param"⟩,
   ⟨"Boolean", "param"⟩, ⟨"depends", "param"⟩,
   ⟨"Row", "panel"⟩, ⟨"panel", "panel"⟩, ⟨"WidgetBox", "panel"⟩,
   ⟨"RadioButtonGroup", "panel"⟩, ⟨"Select", "panel"⟩, ⟨"IntSlider", "panel"⟩,
   ⟨"pn.depends", "panel"⟩]

/-- Every name the notebook's own cells bind at module level (its classes,
functions, instances and layout variables) — none of them implements a
framework mechanism. -/
def notebookDefinedNames : List String :=
  ["load_symbol", "stock_symbols", "dmap", "variables", "StockExplorer",
   "explorer", "stock_dmap", "smoothed", "outliers", "symbol", "variable",
   "rolling_window", "load_symbol_cb", "AdvancedStockExplorer"]

/-! Helper lemmas about column lookup and replacement. -/

theorem lookup_cons {β : Type} (c k : String) (b : β) (t : List (String × β)) :
    List.lookup c ((k, b) :: t) = bif c == k then some b else List.lookup c t := by
  cases h : c == k <;> simp [List.lookup, h]

theorem lookup_replace_ne {β : Type} (l : List (String × β)) (n c : String) (vs : β)
    (h : c ≠ n) :
    (l.map (fun p => if p.1 = n then (p.1, vs) else p)).lookup c = l.lookup c := by
  induction l with
  | nil => rfl
  | cons a t ih =>
    obtain ⟨k, b⟩ := a
    simp only [List.map_cons]
    by_cases hk : k = n
    · have hck : (c == k) = false := beq_eq_false_iff_ne.mpr (fun hc => h (hc.trans hk))
      rw [if_pos hk, lookup_cons, lookup_cons, hck]
      simp [ih]
    · rw [if_neg hk, lookup_cons, lookup_cons, ih]

theorem lookup_replace_self {β : Type} (l : List (String × β)) (n : String) (vs : β)
    (h : (l.lookup n).isSome) :
    (l.map (fun p => if p.1 = n then (p.1, vs) else p)).lookup n = some vs := by
  induction l with
  | nil => simp [List.lookup] at h
  | cons a t ih =>
    obtain ⟨k, b⟩ := a
    simp only [List.map_cons]
    by_cases hnk : n = k
    · have hb : (n == k) = true := beq_iff_eq.mpr hnk
      rw [if_pos hnk.symm, lookup_cons, hb]
      simp
    · have hb : (n == k) = false := beq_eq_false_iff_ne.mpr hnk
      have hkn : ¬ k = n := fun hh => hnk hh.symm
      have h' : (List.lookup n t).isSome := by
        rw [lookup_cons, hb] at h
        simpa using h
      rw [if_neg hkn, lookup_cons, hb]
      simpa using ih h'

theorem getCol_setCol_ne (df : DataFrame) (n c : String) (vs : List PyVal)
    (hn : (df.cols.lookup n).isSome) (h : c ≠ n) :
    (df.setCol n vs).getCol c = df.getCol c := by
  simp only [DataFrame.setCol, hn, if_pos, DataFrame.getCol]
  exact lookup_replace_ne df.cols n c vs h

theorem getCol_setCol_self (df : DataFrame) (n : String) (vs : List PyVal)
    (hn : (df.cols.lookup n).isSome) :
    (df.setCol n vs).getCol n = some vs := by
  simp only [DataFrame.setCol, hn, if_pos, DataFrame.getCol]
  exact lookup_replace_self df.cols n vs hn

/-! The claims. -/

/-- C9: `AdvancedStockExplorer.view` does not rebind or mutate the
module-level name `stocks`: the local assignment inside `view` shadows the
imported sample-data module only within the method body, the globals come
back unchanged, and the inherited `load_symbol` resolves
`getattr(stocks, self.symbol)` against the external module identically
before and after any call to `view`. -/
theorem C9_view_no_global_rebinding :
    ∀ (g : Globals) (a : AdvancedStockExplorer),
      (AdvancedStockExplorer.viewG g a).2 = g ∧
      (AdvancedStockExplorer.viewG g a).1 = a.view ∧
      (∀ se : StockExplorer,
        StockExplorer.load_symbol ((AdvancedStockExplorer.viewG g a).2).stocks se =
          StockExplorer.load_symbol g.stocks se) :=
  fun _ _ => ⟨rfl, rfl, fun _ => rfl⟩

/-- C10: `load_symbol` is deterministic and side-effect free with respect
to notebook state: threading the module globals explicitly, a call leaves
the globals (and in particular the sample-data module's frames) unchanged,
two successive calls with the same arguments return equal curves, and the
stateful run agrees with the pure function. -/
theorem C10_load_symbol_pure :
    ∀ (g : Globals) (s v : String),
      load_symbolG g s v = (load_symbol g.stocks s v, g) ∧
      (load_symbolG g s v).2 = g ∧
      (load_symbolG ((load_symbolG g s v).2) s v).1 = (load_symbolG g s v).1 ∧
      (∀ sym, ((load_symbolG g s v).2).stocks sym = g.stocks sym) := by
  intro g s v
  have h : load_symbolG g s v = (load_symbol g.stocks s v, g) := by
    unfold load_symbolG load_symbol
    cases hS : g.stocks s with
    | none => simp
    | some raw => cases hD : (pdDataFrame raw).getCol "date" <;> simp [hD]
  have hg : (load_symbolG g s v).2 = g := by rw [h]
  exact ⟨h, hg, by rw [hg], fun sym => by rw [hg]⟩

/-- C8: the class-based and function-based dashboards compute the same
plot: for every listed symbol and variable, `load_symbol_cb` returns the
same curve as the module-level `load_symbol`, which equals
`StockExplorer.load_symbol` on any instance holding those parameter
values; and the function-based `IntSlider` mirrors exactly the class's
`rolling_window` default and bounds. -/
theorem C8_function_and_class_agree :
    (∀ (stocks : StocksModule) (s v : String), s ∈ stock_symbols → v ∈ variables_ →
      load_symbol_cb stocks s v = load_symbol stocks s v ∧
      (∀ w : Int, load_symbol stocks s v = StockExplorer.load_symbol stocks ⟨w, s, v⟩)) ∧
    rolling_window_widget.value = rolling_window_param.default ∧
    rolling_window_widget.start = rolling_window_param.lo ∧
    rolling_window_widget.end_ = rolling_window_param.hi ∧
    rolling_window_param.default = 10 ∧ rolling_window_param.lo = 1 ∧
    rolling_window_param.hi = 365 := by
  refine ⟨fun stocks s v _ _ => ⟨rfl, fun w => rfl⟩, rfl, rfl, rfl, rfl, rfl, rfl⟩

/-- The class-based and function-based `load_symbol` agree at a concrete
symbol and variable of the lists. -/
theorem C8_witness :
    load_symbol_cb sampleStocks "AAPL" "open" = load_symbol sampleStocks "AAPL" "open" :=
  ((C8_function_and_class_agree.1 sampleStocks "AAPL" "open" (by decide) (by decide)).1)

/-- C1: for every derived computation declared with a dependency decorator,
the set of declared parameter names equals the set of parameter names the
body reads.  Reading is captured semantically: the computation's result is
unchanged whenever the declared parameters agree (it reads nothing outside
the declared set), and for each declared parameter there are two states
agreeing everywhere else whose results differ (it really reads each
declared one).  In particular `AdvancedStockExplorer.view`, declaring only
`datashade`, reads no parameter outside its declared set — its body only
references `self.load_symbol` and `self.param.rolling_window` without
reading their values. -/
theorem C1_depends_sets_match_reads :
    (StockExplorer.load_symbol_depends = ["symbol", "variable"] ∧
      (∀ (stocks : StocksModule) (s s' : StockExplorer),
        s.symbol = s'.symbol → s.variable_ = s'.variable_ →
        StockExplorer.load_symbol stocks s = StockExplorer.load_symbol stocks s') ∧
      (∃ (stocks : StocksModule) (s s' : StockExplorer),
        s.rolling_window = s'.rolling_window ∧ s.variable_ = s'.variable_ ∧
        StockExplorer.load_symbol stocks s ≠ StockExplorer.load_symbol stocks s') ∧
      (∃ (stocks : StocksModule) (s s' : StockExplorer),
        s.rolling_window = s'.rolling_window ∧ s.symbol = s'.symbol ∧
        StockExplorer.load_symbol stocks s ≠ StockExplorer.load_symbol stocks s')) ∧
    (AdvancedStockExplorer.view_depends = ["datashade"] ∧
      (∀ a a' : AdvancedStockExplorer, a.datashade = a'.datashade →
        a.view = a'.view) ∧
      (∃ a a' : AdvancedStockExplorer,
        a.rolling_window = a'.rolling_window ∧ a.symbol = a'.symbol ∧
        a.variable_ = a'.variable_ ∧ a.view ≠ a'.view)) ∧
    (load_symbol_cb_depends = ["symbol", "variable"] ∧
      (∀ (stocks : StocksModule) (s v s' v' : String), s = s' → v = v' →
        load_symbol_cb stocks s v = load_symbol_cb stocks s' v') ∧
      (∃ (stocks : StocksModule) (s s' v : String),
        load_symbol_cb stocks s v ≠ load_symbol_cb stocks s' v) ∧
      (∃ (stocks : StocksModule) (s v v' : String),
        load_symbol_cb stocks s v ≠ load_symbol_cb stocks s v')) := by
  refine ⟨⟨rfl, ?_, ?_, ?_⟩, ⟨rfl, ?_, ?_⟩, ⟨rfl, ?_, ?_, ?_⟩⟩
  · intro stocks s s' h1 h2
    unfold StockExplorer.load_symbol
    rw [h1, h2]
  · exact ⟨sampleStocks, ⟨10, "AAPL", "adj_close"⟩, ⟨10, "IBM", "adj_close"⟩,
      rfl, rfl, by decide⟩
  · exact ⟨sampleStocks, ⟨10, "AAPL", "adj_close"⟩, ⟨10, "AAPL", "close"⟩,
      rfl, rfl, by decide⟩
  · intro a a' h
    unfold AdvancedStockExplorer.view
    rw [h]
  · exact ⟨⟨10, "AAPL", "adj_close", false⟩, ⟨10, "AAPL", "adj_close", true⟩,
      rfl, rfl, rfl, by decide⟩
  · intro stocks s v s' v' h1 h2
    rw [h1, h2]
  · exact ⟨sampleStocks, "AAPL", "IBM", "adj_close", by decide⟩
  · exact ⟨sampleStocks, "AAPL", "open", "close", by decide⟩

/-- Two `StockExplorer` states agreeing on `symbol` and `variable` (but not
on `rolling_window`) give the same `load_symbol` result. -/
theorem C1_witness :
    StockExplorer.load_symbol sampleStocks ⟨10, "AAPL", "adj_close"⟩ =
      StockExplorer.load_symbol sampleStocks ⟨200, "AAPL", "adj_close"⟩ :=
  C1_depends_sets_match_reads.1.2.1 sampleStocks ⟨10, "AAPL", "adj_close"⟩
    ⟨200, "AAPL", "adj_close"⟩ rfl rfl

/-- C2: a parameter mutation re-invokes every registered computation that
depends on the mutated parameter and only those, each re-invocation is
evaluated at the post-mutation parameter store, and concretely: mutating
`symbol` or `variable` re-invokes the `stock_dmap` callback and not
`view`, mutating `datashade` re-invokes `view` only. -/
theorem C2_recompute_trigger :
    (∀ (p : PName) (c : Computation), c ∈ recomputeTrigger p ↔ p ∈ registry c) ∧
    (∀ (stocks : StocksModule) (st : AdvancedStockExplorer) (p : PName) (v : PyVal),
      (mutateAndRecompute stocks st p v).1 = trySet st p v ∧
      (∀ (c : Computation) (r : CompResult),
        (c, r) ∈ (mutateAndRecompute stocks st p v).2 →
        r = evalComputation stocks (trySet st p v) c) ∧
      (∀ c : Computation,
        (∃ r, (c, r) ∈ (mutateAndRecompute stocks st p v).2) ↔ p ∈ registry c)) ∧
    recomputeTrigger .symbol = [.stock_dmap] ∧
    recomputeTrigger .variable_ = [.stock_dmap] ∧
    recomputeTrigger .datashade = [.view] ∧
    recomputeTrigger .rolling_window = [] := by
  have hmem : ∀ (p : PName) (c : Computation), c ∈ recomputeTrigger p ↔ p ∈ registry c := by
    intro p c
    cases p <;> cases c <;> decide
  refine ⟨hmem, ?_, by decide, by decide, by decide, by decide⟩
  intro stocks st p v
  refine ⟨rfl, ?_, ?_⟩
  · intro c r hr
    simp only [mutateAndRecompute, List.mem_map] at hr
    obtain ⟨c', _, hc'⟩ := hr
    obtain ⟨h1, h2⟩ := Prod.mk.injEq .. ▸ hc'
    rw [← h2, h1]
  · intro c
    constructor
    · rintro ⟨r, hr⟩
      simp only [mutateAndRecompute, List.mem_map] at hr
      obtain ⟨c', hc', heq⟩ := hr
      obtain ⟨h1, _⟩ := Prod.mk.injEq .. ▸ heq
      exact (hmem p c).mp (h1 ▸ hc')
    · intro hp
      exact ⟨evalComputation stocks (trySet st p v) c,
        by
          simp only [mutateAndRecompute, List.mem_map]
          exact ⟨c, (hmem p c).mpr hp, rfl⟩⟩

/-- Mutating `symbol` identifies the `stock_dmap` callback for
re-invocation. -/
theorem C2_witness : Computation.stock_dmap ∈ recomputeTrigger .symbol :=
  (C2_recompute_trigger.1 .symbol .stock_dmap).mpr (by decide)

theorem inDomain_trySet (st : AdvancedStockExplorer) (p : PName) (v : PyVal)
    (h : inDomain st) : inDomain (trySet st p v) := by
  unfold trySet
  by_cases hv : validFor p v
  · rw [if_pos hv]
    obtain ⟨h1, h2, h3, h4⟩ := h
    cases p <;> cases v <;>
      simp only [validFor, Bool.and_eq_true, decide_eq_true_eq] at hv <;>
      first
      | exact ⟨h1, h2, h3, h4⟩
      | (constructor <;> simp_all [inDomain, List.contains_iff_exists_mem_beq])
  · rw [if_neg hv]
    exact h

/-- C3: each parameter of the explorer classes is declared with its name,
its type and its domain exactly as in the notebook; in every state
reachable from the defaults by assignment attempts the current values lie
in the declared domains; and an assignment outside a domain (wrong type or
out of bounds/objects) is rejected leaving the stored value unchanged. -/
theorem C3_parameter_domains :
    (AdvancedStockExplorer.mk0.rolling_window = 10 ∧
     AdvancedStockExplorer.mk0.symbol = "AAPL" ∧
     AdvancedStockExplorer.mk0.variable_ = "adj_close" ∧
     AdvancedStockExplorer.mk0.datashade = false) ∧
    (rolling_window_param.lo = 1 ∧ rolling_window_param.hi = 365 ∧
     symbol_param.objects = ["AAPL", "IBM", "FB", "GOOG", "MSFT"] ∧
     variable_param.objects = ["open", "high", "low", "close", "volume", "adj_close"]) ∧
    (PName.rolling_window.pyName = "rolling_window" ∧
     PName.symbol.pyName = "symbol" ∧
     PName.variable_.pyName = "variable" ∧
     PName.datashade.pyName = "datashade") ∧
    (∀ updates : List (PName × PyVal),
      inDomain (applyAll AdvancedStockExplorer.mk0 updates)) ∧
    (∀ (st : AdvancedStockExplorer) (p : PName) (v : PyVal),
      validFor p v = false → trySet st p v = st) := by
  refine ⟨⟨rfl, rfl, rfl, rfl⟩, ⟨rfl, rfl, rfl, rfl⟩, ⟨rfl, rfl, rfl, rfl⟩, ?_, ?_⟩
  · have step : ∀ (updates : List (PName × PyVal)) (st : AdvancedStockExplorer),
        inDomain st → inDomain (applyAll st updates) := by
      intro updates
      induction updates with
      | nil => exact fun st h => h
      | cons u t ih =>
        intro st h
        exact ih (trySet st u.1 u.2) (inDomain_trySet st u.1 u.2 h)
    exact fun updates => step updates AdvancedStockExplorer.mk0 (by decide)
  · intro st p v hv
    unfold trySet
    rw [hv]
    rfl

/-- An out-of-bounds assignment to `rolling_window` is rejected and leaves
the store unchanged. -/
theorem C3_witness :
    trySet AdvancedStockExplorer.mk0 .rolling_window (.int 1000) =
      AdvancedStockExplorer.mk0 :=
  C3_parameter_domains.2.2.2.2 AdvancedStockExplorer.mk0 .rolling_window (.int 1000)
    (by decide)

theorem load_symbol_eq (stocks : StocksModule) (symbol varName : String) :
    load_symbol stocks symbol varName =
      match stocks symbol with
      | none => .error (.attributeError "bokeh.sampledata.stocks" symbol)
      | some raw =>
        match (pdDataFrame raw).getCol "date" with
        | none => .error (.attributeError "DataFrame" "date")
        | some dateCol =>
          .ok ⟨(pdDataFrame raw).setCol "date" (dateCol.map PyVal.toDatetime64),
               ("date", "Date"), varName, true⟩ := by
  unfold load_symbol
  cases stocks symbol with
  | none => rfl
  | some raw => cases (pdDataFrame raw).getCol "date" <;> rfl

theorem SE_load_symbol_eq (stocks : StocksModule) (s : StockExplorer) :
    StockExplorer.load_symbol stocks s = load_symbol stocks s.symbol s.variable_ := rfl

/-- C4: the notebook catches, retries and transforms nothing: when the
underlying `getattr` fails (an unknown symbol on the sample-data module, or
a frame without a `date` column), every notebook entry point returns that
very `AttributeError` unchanged, and conversely every error any of them
returns is exactly one raised by an underlying library call. -/
theorem C4_errors_propagate_unchanged :
    ∀ (stocks : StocksModule) (symbol varName : String) (w : Int),
      (stocks symbol = none →
        load_symbol stocks symbol varName =
          .error (.attributeError "bokeh.sampledata.stocks" symbol) ∧
        StockExplorer.load_symbol stocks ⟨w, symbol, varName⟩ =
          .error (.attributeError "bokeh.sampledata.stocks" symbol) ∧
        load_symbol_cb stocks symbol varName =
          .error (.attributeError "bokeh.sampledata.stocks" symbol)) ∧
      (∀ e, load_symbol stocks symbol varName = .error e →
        (stocks symbol = none ∧
          e = .attributeError "bokeh.sampledata.stocks" symbol) ∨
        (∃ raw, stocks symbol = some raw ∧ (pdDataFrame raw).getCol "date" = none ∧
          e = .attributeError "DataFrame" "date")) := by
  intro stocks symbol varName w
  constructor
  · intro h
    have h1 : load_symbol stocks symbol varName =
        .error (.attributeError "bokeh.sampledata.stocks" symbol) := by
      rw [load_symbol_eq, h]
    exact ⟨h1, by rw [SE_load_symbol_eq]; exact h1, h1⟩
  · intro e he
    rw [load_symbol_eq] at he
    cases hS : stocks symbol with
    | none =>
      simp only [hS] at he
      left
      refine ⟨rfl, ?_⟩
      injection he with he'
      exact he'.symm
    | some raw =>
      simp only [hS] at he
      cases hD : (pdDataFrame raw).getCol "date" with
      | none =>
        simp only [hD] at he
        right
        refine ⟨raw, rfl, hD, ?_⟩
        injection he with he'
        exact he'.symm
      | some dateCol =>
        simp only [hD] at he
        exact absurd he (by simp)

/-- `load_symbol` applied to a symbol that is not an attribute of the
sample-data module returns the library's `AttributeError` unchanged. -/
theorem C4_witness :
    load_symbol sampleStocks "TSLA" "adj_close" =
      .error (.attributeError "bokeh.sampledata.stocks" "TSLA") :=
  (((C4_errors_propagate_unchanged sampleStocks "TSLA" "adj_close" 10).1 (by decide)).1)

/-- C5: the notebook defines no stock-price data of its own: every curve it
builds is constructed solely from the frame `getattr(stocks, symbol)`
returns, the only notebook-side transformation being the cast of the
`date` column to `datetime64[ns]` — every other column is carried over
unchanged, the key dimension is `('date', 'Date')` and the value dimension
is the requested variable. -/
theorem C5_data_solely_external :
    ∀ (stocks : StocksModule) (symbol varName : String) (raw : RawFrame) (curve : Curve),
      stocks symbol = some raw →
      load_symbol stocks symbol varName = .ok curve →
      ∃ dateCol, (pdDataFrame raw).getCol "date" = some dateCol ∧
        curve.data = (pdDataFrame raw).setCol "date" (dateCol.map PyVal.toDatetime64) ∧
        curve.data.getCol "date" = some (dateCol.map PyVal.toDatetime64) ∧
        (∀ c, c ≠ "date" → curve.data.getCol c = (pdDataFrame raw).getCol c) ∧
        curve.kdim = ("date", "Date") ∧ curve.vdim = varName ∧ curve.framewise = true := by
  intro stocks symbol varName raw curve hS hok
  rw [load_symbol_eq] at hok
  simp only [hS] at hok
  cases hD : (pdDataFrame raw).getCol "date" with
  | none =>
    simp only [hD] at hok
    exact absurd hok (by simp)
  | some dateCol =>
    simp only [hD] at hok
    have hc : curve =
        ⟨(pdDataFrame raw).setCol "date" (dateCol.map PyVal.toDatetime64),
         ("date", "Date"), varName, true⟩ := by
      injection hok with h
      exact h.symm
    subst hc
    have hsome : ((pdDataFrame raw).cols.lookup "date").isSome := by
      have : (pdDataFrame raw).getCol "date" = (pdDataFrame raw).cols.lookup "date" := rfl
      rw [← this, hD]
      rfl
    exact ⟨dateCol, rfl, rfl, getCol_setCol_self _ _ _ hsome,
      fun c hcne => getCol_setCol_ne _ _ _ _ hsome hcne, rfl, rfl, rfl⟩

/-- The curve built for `AAPL`/`adj_close` from the concrete sample data is
the external frame with only its `date` column cast. -/
theorem C5_witness :
    ∃ dateCol, (pdDataFrame (sampleFrame 10)).getCol "date" = some dateCol ∧
      (DataFrame.setCol (pdDataFrame (sampleFrame 10)) "date"
          ([PyVal.str "2000-03-01", PyVal.str "2000-03-02"].map PyVal.toDatetime64) :
        DataFrame) =
        (pdDataFrame (sampleFrame 10)).setCol "date" (dateCol.map PyVal.toDatetime64) ∧
      (DataFrame.setCol (pdDataFrame (sampleFrame 10)) "date"
          ([PyVal.str "2000-03-01", PyVal.str "2000-03-02"].map PyVal.toDatetime64)).getCol
          "date" = some (dateCol.map PyVal.toDatetime64) ∧
      (∀ c, c ≠ "date" →
        (DataFrame.setCol (pdDataFrame (sampleFrame 10)) "date"
            ([PyVal.str "2000-03-01", PyVal.str "2000-03-02"].map PyVal.toDatetime64)).getCol
            c = (pdDataFrame (sampleFrame 10)).getCol c) ∧
      (("date", "Date") : String × String) = ("date", "Date") ∧
      "adj_close" = "adj_close" ∧ true = true := by
  have h := C5_data_solely_external sampleStocks "AAPL" "adj_close" (sampleFrame 10)
    ⟨DataFrame.setCol (pdDataFrame (sampleFrame 10)) "date"
        ([PyVal.str "2000-03-01", PyVal.str "2000-03-02"].map PyVal.toDatetime64),
      ("date", "Date"), "adj_close", true⟩ (by decide) (by decide)
  exact h

/-- C6: the notebook's imports span exactly the three third-party
framework families — charting (`holoviews`, including its `rolling`,
`rolling_outlier_std`, `datashade` and `dynspread` operations),
widgets/dashboarding (`panel`) and parameter declaration (`param`); the
remaining imports (`pandas`, `bokeh.sampledata`) supply data only; and
every reactive-binding, recompute and rendering mechanism the cells
exercise is provided by one of those imported families, never by a name
the notebook defines itself. -/
theorem C6_three_framework_families :
    (∀ fam : FrameworkFamily, ∃ i ∈ notebookImports,
      familyOf (topPackage i.module) = some fam) ∧
    familyOf (topPackage "pandas") = none ∧
    familyOf (topPackage "bokeh.sampledata") = none ∧
    (∀ m ∈ mechanismsUsed,
      (familyOf m.provider).isSome = true ∧
      m.provider ∈ notebookImports.map (fun i => topPackage i.module) ∧
      m.name ∉ notebookDefinedNames) := by
  refine ⟨?_, by decide, by decide, by decide⟩
  intro fam
  cases fam with
  | charting => exact ⟨⟨"holoviews", []⟩, by decide, by decide⟩
  | widgets => exact ⟨⟨"panel", []⟩, by decide, by decide⟩
  | paramDecl => exact ⟨⟨"param", []⟩, by decide, by decide⟩

/-- The `DynamicMap` mechanism is supplied by the imported charting
family, not defined by the notebook. -/
theorem C6_witness :
    (familyOf (Mechanism.provider ⟨"DynamicMap", "holoviews"⟩)).isSome = true ∧
    Mechanism.provider ⟨"DynamicMap", "holoviews"⟩ ∈
      notebookImports.map (fun i => topPackage i.module) ∧
    Mechanism.name ⟨"DynamicMap", "holoviews"⟩ ∉ notebookDefinedNames :=
  C6_three_framework_families.2.2.2 ⟨"DynamicMap", "holoviews"⟩ (by decide)

/-- C7: executed once, in order, from a fresh interpreter against
sample data that has a frame with a `date` column for every listed
symbol, every code cell of the notebook completes without raising. -/
theorem C7_cells_run_without_raising :
    ∀ stocks : StocksModule, (∀ s ∈ stock_symbols, hasData stocks s = true) →
      runNotebook stocks = Except.ok () := by
  intro stocks h
  have hA : hasData stocks "AAPL" = true := h "AAPL" (by decide)
  unfold hasData at hA
  cases hS : stocks "AAPL" with
  | none => rw [hS] at hA; simp at hA
  | some raw =>
    rw [hS] at hA
    simp only [Option.some_bind] at hA
    cases hD : raw.cols.lookup "date" with
    | none => rw [hD] at hA; simp at hA
    | some dateCol =>
      have hload : ∀ v, load_symbol stocks "AAPL" v =
          .ok ⟨(pdDataFrame raw).setCol "date" (dateCol.map PyVal.toDatetime64),
               ("date", "Date"), v, true⟩ := by
        intro v
        rw [load_symbol_eq]
        simp only [hS]
        have hD' : (pdDataFrame raw).getCol "date" = some dateCol := hD
        simp only [hD']
      have hrn : runNotebook stocks =
          Except.bind (load_symbol stocks "AAPL" "adj_close") (fun _ =>
          Except.bind (load_symbol stocks "AAPL" "adj_close") (fun _ =>
          Except.bind (load_symbol stocks "AAPL" "adj_close") (fun _ =>
          Except.bind (load_symbol stocks "AAPL" "open") (fun _ =>
          Except.bind (load_symbol stocks "AAPL" "adj_close") (fun _ =>
          Except.ok ()))))) := rfl
      rw [hrn]
      simp only [hload]
      rfl

/-- The whole notebook runs without raising on the concrete sample data. -/
theorem C7_witness : runNotebook sampleStocks = Except.ok () :=
  C7_cells_run_without_raising sampleStocks (by decide)

end Dashboards
